import Mathlib

/-!
Verification of the playwright download-API service (Go).

The repository contains several variants of the same service.  The latest
variant (src/unnamed/part_001) adds per-user object keys: its entry points are
`performLogin`, `loginHandler`, `downloadHandler`, `processDownload`,
`runDownload`, `generateR2Path`, `uploadToR2`, `createNewContext` and the
startup logic in `main`.  An earlier variant (src/unnamed/part_000) stages the
captured download in a temp file and streams it to object storage.

Browser, filesystem and network operations are modelled by oracles: records of
outcomes for each external call a run performs.  Each embedded function threads
an explicit list of effects (the external operations it invoked), so temporal
claims (what happened before what, what never happened) are claims about that
list.  Machinery from the Go standard library used by `generateR2Path`
(`net/url`, `path/filepath`, `strings`) is embedded first.
-/

namespace PlaywrightAPI

/-! ## Go standard-library string models -/

/-- Drop all trailing slash characters (used by `filepath.Base` and by
`strings.TrimRight(s, "/")`). -/
def dropTrailingSlashes (cs : List Char) : List Char :=
  (cs.reverse.dropWhile (· = '/')).reverse

/-- The segment of `cs` after its last slash (identity when no slash). -/
def afterLastSlash (cs : List Char) : List Char :=
  cs.foldl (fun acc c => if c = '/' then [] else acc ++ [c]) []

/-- Model of Go `path/filepath.Base` on a unix separator. -/
def goFilepathBase (p : String) : String :=
  if p = "" then "."
  else
    let cs := dropTrailingSlashes p.data
    if cs = [] then "/"
    else String.mk (afterLastSlash cs)

/-- Helper for `goFilepathExt`: walk the reversed characters of the final
path element; on the first dot return the suffix from that dot on. -/
def goExtAux : List Char → List Char → String
  | [], _ => ""
  | c :: rest, acc =>
    if c = '/' then ""
    else if c = '.' then String.mk ('.' :: acc)
    else goExtAux rest (c :: acc)

/-- Model of Go `path/filepath.Ext`: the suffix beginning at the final dot in
the final slash-separated element, or empty if there is none. -/
def goFilepathExt (p : String) : String :=
  goExtAux p.data.reverse []

/-- Scan for the first occurrence of the scheme separator `://` and return
what follows it. -/
def dropThroughSchemeSep : List Char → Option (List Char)
  | ':' :: '/' :: '/' :: rest => some rest
  | _ :: rest => dropThroughSchemeSep rest
  | [] => none

/-- Model of the `.Path` component produced by Go `net/url.Parse` for
hierarchical URLs without percent-escapes in the path: strip the fragment
(after the first hash) and the query (after the first question mark); if a
scheme separator is present, the path starts at the first slash after the
authority, otherwise the remainder is the path. -/
def goURLPath (u : String) : String :=
  let cs := (u.data.takeWhile (· ≠ '#')).takeWhile (· ≠ '?')
  match dropThroughSchemeSep cs with
  | some rest => String.mk (rest.dropWhile (· ≠ '/'))
  | none => String.mk cs

/-- Characters Go `net/url.QueryEscape` leaves unescaped (RFC 3986
unreserved). -/
def isUnreservedQuery (c : Char) : Bool :=
  (('A' ≤ c && c ≤ 'Z') || ('a' ≤ c && c ≤ 'z') || ('0' ≤ c && c ≤ '9')
    || c = '-' || c = '_' || c = '.' || c = '~')

/-- UTF-8 bytes of a character, computed arithmetically from its code point. -/
def utf8BytesOfChar (c : Char) : List Nat :=
  let n := c.toNat
  if n < 0x80 then [n]
  else if n < 0x800 then [0xC0 + n / 64, 0x80 + n % 64]
  else if n < 0x10000 then [0xE0 + n / 4096, 0x80 + (n / 64) % 64, 0x80 + n % 64]
  else [0xF0 + n / 0x40000, 0x80 + (n / 4096) % 64, 0x80 + (n / 64) % 64, 0x80 + n % 64]

/-- Upper-case hex digit for a value below 16 (Go escapes with upper case). -/
def hexUpperDigit (n : Nat) : Char :=
  (("0123456789ABCDEF".data).getD n '0')

/-- Percent-encoding of one byte, `%XY` with upper-case hex. -/
def percentByte (b : Nat) : List Char :=
  ['%', hexUpperDigit (b / 16), hexUpperDigit (b % 16)]

/-- Model of Go `net/url.QueryEscape`: unreserved bytes kept, space becomes a
plus, every other byte of the UTF-8 encoding is percent-escaped. -/
def goQueryEscape (s : String) : String :=
  String.mk (s.data.foldr
    (fun c acc =>
      (if c = ' ' then ['+']
       else if isUnreservedQuery c then [c]
       else (utf8BytesOfChar c).foldr (fun b a => percentByte b ++ a) []) ++ acc)
    [])

/-- Model of Go `strings.Split(s, sep)` for a one-character separator. -/
def goSplitChar (sep : Char) : List Char → List (List Char)
  | [] => [[]]
  | c :: rest =>
    match goSplitChar sep rest with
    | [] => [[]]
    | h :: t => if c = sep then [] :: h :: t else (c :: h) :: t

/-- Model of Go `strings.Join(parts, sep)` for a one-character separator. -/
def goJoinChar (sep : Char) : List (List Char) → List Char
  | [] => []
  | [p] => p
  | p :: rest => p ++ sep :: goJoinChar sep rest

/-- Model of Go `strings.TrimRight(s, "/")`. -/
def goTrimRightSlash (s : String) : String :=
  String.mk (dropTrailingSlashes s.data)

/-- Model of Go `filepath.Join(a, b)` for a nonempty first component without
trailing slash (the only shapes the service produces). -/
def joinPath (a b : String) : String :=
  a ++ "/" ++ b

/-- Model of the Go process environment: `os.Getenv` returns the empty string
for unset variables. -/
def Env : Type := String → String

/-- Model of the repository helper `getEnv(key, defaultValue)`: the
environment value when non-empty, the default otherwise. -/
def getEnv (env : Env) (key defaultValue : String) : String :=
  if env key ≠ "" then env key else defaultValue

/-! ## Latest variant (src/unnamed/part_001) -/

namespace V1

open PlaywrightAPI

/-- Model of `generateR2Path(originalURL, email)` (part_001 lines 410-442):
take the base name of the URL path, strip its extension, drop the part after
the last underscore when an underscore is present, force a `.jpg` extension,
query-escape the email and join; returns `(fullURL, objectKey)`.  The
environment is an explicit argument (the source reads `R2_URL`). -/
def generateR2Path (env : Env) (originalURL email : String) : String × String :=
  let baseName := goFilepathBase (goURLPath originalURL)
  let ext := goFilepathExt baseName
  let nameWithoutExt := baseName.data.take (baseName.data.length - ext.data.length)
  let parts := goSplitChar '_' nameWithoutExt
  let nameStripped := if parts.length > 1 then goJoinChar '_' parts.dropLast else nameWithoutExt
  let finalFilename := String.mk nameStripped ++ ".jpg"
  let encodedEmail := goQueryEscape email
  let r2Base := getEnv env "R2_URL" "https://storage.stokbro.net"
  let fullURL := goTrimRightSlash r2Base ++ "/" ++ encodedEmail ++ "/" ++ finalFilename
  let objectKey := encodedEmail ++ "/" ++ finalFilename
  (fullURL, objectKey)

end V1

/-- Model of `getStorageStatePath()`: the fixed session-snapshot path under
the home directory (identical in part_000 and part_001). -/
def getStorageStatePath (homeDir : String) : String :=
  joinPath homeDir "freepik_storage_state.json"

/-- HTTP method, as far as the handlers distinguish it. -/
inductive Method
  | get
  | post
deriving DecidableEq

/-- External operations of the download pipeline (both variants), in program
order.  An entry means the operation was invoked. -/
inductive DlEffect
  | navigate (url : String)
  | checkDownloadButtonVisible
  | clickDownloadButton
  | saveFile (path : String)
  | uploadCall (localPath objectKey : String)
  | removeFile (path : String)
deriving DecidableEq

/-- How many times a pipeline run deleted the file at path `p`. -/
def countRemovesOf (p : String) (eff : List DlEffect) : Nat :=
  eff.countP (fun e => e = DlEffect.removeFile p)

namespace V1

/-- The mutable globals of part_001 guarded by `contextMux`: the logged-in
flag, the email stored by the last `/login` request, and the identity of the
current browser-context reference (`browserContext`). -/
structure ServerState where
  isLoggedIn : Bool
  currentUserEmail : String
  contextId : Nat
deriving DecidableEq

/-- Decoded body of a `/login` request. -/
structure LoginRequest where
  email : String
  password : String
deriving DecidableEq

/-- Decoded body of a `/download` request (latest variant: url and email). -/
structure DownloadRequest where
  url : String
  email : String
deriving DecidableEq

/-- Browser-side operations the login sequencer invokes, recorded in program
order.  An entry means the operation was invoked, not that it succeeded. -/
inductive LoginEffect
  | navigateHome
  | clickSignIn
  | clickContinue
  | fillEmailField (email : String)
  | fillPasswordField
  | checkStayLoggedIn
  | clickLoginButton
  | saveStorage (path : String)
deriving DecidableEq

/-- Outcomes of the external calls one `performLogin` run makes.  `checkOk`
models the checkbox check whose failure the source only logs (non-fatal). -/
structure LoginOracle where
  newPageOk : Bool
  addInitScriptOk : Bool
  gotoOk : Bool
  clickSignInOk : Bool
  clickContinueOk : Bool
  fillEmailOk : Bool
  fillPasswordOk : Bool
  stayLoggedInVisible : Bool
  checkOk : Bool
  clickLoginOk : Bool
  successIndicatorVisible : Bool
  stillOnLoginPage : Bool
  errorIndicatorVisible : Bool
  storageSaveOk : Bool
deriving DecidableEq

/-- Result of a `performLogin` run: the updated globals, the effects the run
performed, and the returned error if any. -/
structure LoginResult where
  state : ServerState
  effects : List LoginEffect
  err : Option String
deriving DecidableEq

/-- Model of `performLogin` (part_001 lines 173-322).  The whole body runs
under `contextMux.Lock()`; the lock itself is modelled separately (see the
trace semantics below).  Every failing step returns the globals unchanged;
only the final classification-and-save path sets `isLoggedIn`.  The
classification step (lines 277-310) fails only when no success indicator is
visible and either the URL is still a login page or an error indicator is
visible. -/
def performLogin (o : LoginOracle) (homeDir email password : String)
    (s : ServerState) : LoginResult :=
  if !o.newPageOk then ⟨s, [], some "failed to create page"⟩
  else if !o.addInitScriptOk then ⟨s, [], some "failed to inject stealth scripts"⟩
  else
    let e1 := [LoginEffect.navigateHome]
    if !o.gotoOk then ⟨s, e1, some "failed to navigate to freepik"⟩
    else
      let e2 := e1 ++ [LoginEffect.clickSignIn]
      if !o.clickSignInOk then ⟨s, e2, some "failed to click sign in button"⟩
      else
        let e3 := e2 ++ [LoginEffect.clickContinue]
        if !o.clickContinueOk then ⟨s, e3, some "failed to click continue with email button"⟩
        else
          let e4 := e3 ++ [LoginEffect.fillEmailField email]
          if !o.fillEmailOk then ⟨s, e4, some "failed to fill email"⟩
          else
            let e5 := e4 ++ [LoginEffect.fillPasswordField]
            if !o.fillPasswordOk then ⟨s, e5, some "failed to fill password"⟩
            else
              let e6 := if o.stayLoggedInVisible then e5 ++ [LoginEffect.checkStayLoggedIn] else e5
              let e7 := e6 ++ [LoginEffect.clickLoginButton]
              if !o.clickLoginOk then ⟨s, e7, some "failed to click login button"⟩
              else
                if !o.successIndicatorVisible && o.stillOnLoginPage then
                  ⟨s, e7, some "login failed - still on login page"⟩
                else if !o.successIndicatorVisible && o.errorIndicatorVisible then
                  ⟨s, e7, some "login failed - error message detected"⟩
                else
                  let e8 := e7 ++ [LoginEffect.saveStorage (getStorageStatePath homeDir)]
                  if !o.storageSaveOk then ⟨s, e8, some "failed to save storage state"⟩
                  else ⟨{ s with isLoggedIn := true }, e8, none⟩

/-- Default applied by `loginHandler` when the email field is empty
(part_001 lines 150-153). -/
def effectiveEmail (req : LoginRequest) : String :=
  if req.email = "" then "mymymy@gmail.com" else req.email

/-- Default applied by `loginHandler` when the password field is empty
(part_001 lines 159-161). -/
def effectivePassword (req : LoginRequest) : String :=
  if req.password = "" then "mypassword" else req.password

/-- What the `/login` handler produces: the globals after the call and the
HTTP response fields.  `jsonResponse` never sets an explicit status, so JSON
responses carry status 200. -/
structure LoginHandlerOut where
  state : ServerState
  status : Nat
  success : Bool
  message : String
  errMsg : String
deriving DecidableEq

/-- Model of `loginHandler` (part_001 lines 138-171): method check, JSON
decode, email default, store of `currentUserEmail` (before the login attempt),
password default, then `performLogin`; its error, if any, is embedded in the
JSON error field. -/
def loginHandler (o : LoginOracle) (homeDir : String) (method : Method)
    (body : Option LoginRequest) (s : ServerState) : LoginHandlerOut :=
  if method ≠ Method.post then ⟨s, 405, false, "", "Method not allowed"⟩
  else
    match body with
    | none => ⟨s, 200, false, "", "Invalid JSON payload"⟩
    | some req =>
      let email := effectiveEmail req
      let s1 := { s with currentUserEmail := email }
      let password := effectivePassword req
      let r := performLogin o homeDir email password s1
      match r.err with
      | some e => ⟨r.state, 200, false, "", "Login failed: " ++ e⟩
      | none => ⟨r.state, 200, true, "Login successful", ""⟩

/-- Outcomes of the external calls one download run makes. -/
structure DownloadOracle where
  newPageOk : Bool
  addInitScriptOk : Bool
  mkdirOk : Bool
  gotoOk : Bool
  titleOk : Bool
  title : String
  downloadButtonVisible : Bool
  expectDownloadOk : Bool
  suggestedFilename : String
  saveOk : Bool
  uploadOpenOk : Bool
  uploadPutOk : Bool
deriving DecidableEq

/-- Model of `uploadToR2(localPath, objectKey)` (part_001 lines 444-483):
opens the local path and puts the object; first failure is returned. -/
def uploadToR2 (o : DownloadOracle) (localPath objectKey : String) : Option String :=
  if !o.uploadOpenOk then some "failed to open local file"
  else if !o.uploadPutOk then some "failed to put object"
  else none

/-- Model of `runDownload` (part_001 lines 485-561): page creation, stealth
script, download directory, navigation, grace period and title read, anti-bot
title check, download-control visibility check, click with download capture,
save to the per-user downloads directory.  Returns the staged path or the
error, with the effects performed. -/
def runDownload (o : DownloadOracle) (homeDir targetURL : String) :
    Except String String × List DlEffect :=
  if !o.newPageOk then (Except.error "failed to create new page", [])
  else if !o.addInitScriptOk then (Except.error "failed to inject stealth scripts", [])
  else if !o.mkdirOk then (Except.error "failed to create download directory", [])
  else
    let e1 := [DlEffect.navigate targetURL]
    if !o.gotoOk then (Except.error "failed to navigate to page", e1)
    else if !o.titleOk then (Except.error "failed to get page title", e1)
    else if o.title = "Access Denied" || o.title = "Just a moment..." then
      (Except.error "page blocked by anti-bot protection", e1)
    else
      let e2 := e1 ++ [DlEffect.checkDownloadButtonVisible]
      if !o.downloadButtonVisible then (Except.error "download button not found", e2)
      else
        let e3 := e2 ++ [DlEffect.clickDownloadButton]
        if !o.expectDownloadOk then (Except.error "failed to click download button", e3)
        else
          let saveFileTo := joinPath (joinPath homeDir "freepik_downloads") o.suggestedFilename
          let e4 := e3 ++ [DlEffect.saveFile saveFileTo]
          if !o.saveOk then (Except.error "failed to save file", e4)
          else (Except.ok saveFileTo, e4)

/-- Model of `processDownload` (part_001 lines 386-408): local download, then
upload, then removal of the staged file only after a successful upload.  The
source passes `targetURL` — not the staged path — as the local path of
`uploadToR2`; the model preserves that. -/
def processDownload (o : DownloadOracle) (homeDir targetURL r2Key : String) :
    List DlEffect :=
  match runDownload o homeDir targetURL with
  | (Except.error _, eff) => eff
  | (Except.ok localFilePath, eff) =>
    let eff2 := eff ++ [DlEffect.uploadCall targetURL r2Key]
    match uploadToR2 o targetURL r2Key with
    | some _ => eff2
    | none => eff2 ++ [DlEffect.removeFile localFilePath]

/-- What the `/download` handler produces: response fields plus the spawned
background tasks, each recorded as the `(targetURL, r2Key)` pair handed to
`go processDownload`. -/
structure DownloadHandlerOut where
  status : Nat
  success : Bool
  message : String
  file : String
  errMsg : String
  spawned : List (String × String)
deriving DecidableEq

/-- Model of `downloadHandler` (part_001 lines 324-369): method check, JSON
decode, url and email presence checks, logged-in check under the read lock,
then key generation from the stored `currentUserEmail` and the spawn of the
background task. -/
def downloadHandler (env : Env) (method : Method) (body : Option DownloadRequest)
    (s : ServerState) : DownloadHandlerOut :=
  if method ≠ Method.post then ⟨405, false, "", "", "Method not allowed", []⟩
  else
    match body with
    | none => ⟨400, false, "", "", "Invalid JSON payload", []⟩
    | some req =>
      if req.url = "" then ⟨400, false, "", "", "URL is required", []⟩
      else if req.email = "" then ⟨400, false, "", "", "Email is required for file storage", []⟩
      else if !s.isLoggedIn then ⟨401, false, "", "", "Not logged in. Please login first.", []⟩
      else
        let p := generateR2Path env req.url s.currentUserEmail
        ⟨200, true, "Download started", p.1, "", [(req.url, p.2)]⟩

/-- The fixed fresh-context fingerprint of `createNewContext`
(part_001 lines 109-128). -/
structure Fingerprint where
  userAgent : String
  viewportWidth : Nat
  viewportHeight : Nat
  locale : String
  timezoneId : String
  acceptLanguage : String
deriving DecidableEq

/-- The values the source passes to `browser.NewContext` in
`createNewContext`. -/
def freshFingerprint : Fingerprint where
  userAgent := "Mozilla/5.0 (Windows NT 10.0; Win64; x64) AppleWebKit/537.36 (KHTML, like Gecko) Chrome/120.0.0.0 Safari/537.36"
  viewportWidth := 1920
  viewportHeight := 1080
  locale := "en-US"
  timezoneId := "America/New_York"
  acceptLanguage := "en-US,en;q=0.9"

/-- A live browser context: either created from the persisted storage state
or fresh with a fingerprint. -/
inductive ContextKind
  | fromStorageState (path : String)
  | fresh (fp : Fingerprint)
deriving DecidableEq

/-- Outcomes of the startup-time external calls: `os.Stat` on the storage
file, `browser.NewContext` from the storage state, and `browser.NewContext`
fresh. -/
structure StartupOracle where
  storageFileExists : Bool
  loadContextOk : Bool
  freshContextOk : Bool
deriving DecidableEq

/-- State after the startup block: the live contexts, the logged-in flag, and
whether the login sequencer ran. -/
structure StartupResult where
  contexts : List ContextKind
  isLoggedIn : Bool
  ranLoginSequencer : Bool
deriving DecidableEq

/-- Model of `createNewContext` (part_001 lines 109-128): a fresh context
with the fixed fingerprint and `isLoggedIn = false`; on failure the process
dies (`log.Fatalf`), modelled as `none`. -/
def createNewContext (o : StartupOracle) : Option (List ContextKind × Bool) :=
  if o.freshContextOk then some ([ContextKind.fresh freshFingerprint], false) else none

/-- Model of the startup block of `main` (part_001 lines 78-94): when the
storage-state file exists, try a context from it and mark logged-in on
success; on absence or load failure fall back to `createNewContext`.  The
login sequencer is never invoked here. -/
def startupSession (o : StartupOracle) (homeDir : String) : Option StartupResult :=
  if o.storageFileExists then
    if o.loadContextOk then
      some { contexts := [ContextKind.fromStorageState (getStorageStatePath homeDir)],
             isLoggedIn := true, ranLoginSequencer := false }
    else
      match createNewContext o with
      | none => none
      | some (ctxs, li) => some { contexts := ctxs, isLoggedIn := li, ranLoginSequencer := false }
  else
    match createNewContext o with
    | none => none
    | some (ctxs, li) => some { contexts := ctxs, isLoggedIn := li, ranLoginSequencer := false }

end V1

/-! ## Temp-file variant (src/unnamed/part_000) -/

namespace V0

/-- Outcomes of the external calls one part_000 `runDownload` run makes. -/
structure RunOracle where
  newPageOk : Bool
  addInitScriptOk : Bool
  gotoOk : Bool
  titleOk : Bool
  title : String
  downloadButtonVisible : Bool
  expectDownloadOk : Bool
  suggestedFilename : String
  createTempOk : Bool
  tmpPath : String
  saveOk : Bool
  openOk : Bool
  uploadOk : Bool
deriving DecidableEq

/-- Object key computed by part_000 `uploadToR2` (lines 176-178): the upload
date joined with the suggested filename. -/
def uploadKey (dateStr filename : String) : String :=
  dateStr ++ "/" ++ filename

/-- The part of part_000 `runDownload` after the temp file exists (lines
527-548): save the captured download into it, reopen it, stream it to object
storage.  The deferred removal is appended by `runDownload` itself, so the
failure results here carry no removal yet. -/
def runDownloadTail (o : RunOracle) (dateStr : String) (eff : List DlEffect) :
    Option String × List DlEffect :=
  let e1 := eff ++ [DlEffect.saveFile o.tmpPath]
  if !o.saveOk then (some "failed to save download", e1)
  else if !o.openOk then (some "failed to open temp file", e1)
  else
    let e2 := e1 ++ [DlEffect.uploadCall o.tmpPath (uploadKey dateStr o.suggestedFilename)]
    if !o.uploadOk then (some "failed to upload to R2", e2)
    else (none, e2)

/-- Model of part_000 `runDownload` (lines 455-549): same navigation,
anti-bot and control steps as the latest variant, then a temp file is created
and `defer os.Remove(tmpPath)` (line 525) guarantees one removal on every
exit path after that point, modelled by appending the removal to whatever
`runDownloadTail` produced.  Returns the error, if any, and the effects. -/
def runDownload (o : RunOracle) (dateStr targetURL : String) :
    Option String × List DlEffect :=
  if !o.newPageOk then (some "failed to create new page", [])
  else if !o.addInitScriptOk then (some "failed to inject stealth scripts", [])
  else
    let e1 := [DlEffect.navigate targetURL]
    if !o.gotoOk then (some "failed to navigate to page", e1)
    else if !o.titleOk then (some "failed to get page title", e1)
    else if o.title = "Access Denied" || o.title = "Just a moment..." then
      (some "page blocked by anti-bot protection", e1)
    else
      let e2 := e1 ++ [DlEffect.checkDownloadButtonVisible]
      if !o.downloadButtonVisible then (some "download button not found", e2)
      else
        let e3 := e2 ++ [DlEffect.clickDownloadButton]
        if !o.expectDownloadOk then (some "failed to click download button", e3)
        else if !o.createTempOk then (some "failed to create temp file", e3)
        else
          let r := runDownloadTail o dateStr e3
          (r.1, r.2 ++ [DlEffect.removeFile o.tmpPath])

/-- Model of part_000 `processDownload` (lines 444-453): run the pipeline and
log the outcome; no further file handling happens outside `runDownload`. -/
def processDownload (o : RunOracle) (dateStr targetURL : String) : List DlEffect :=
  (runDownload o dateStr targetURL).2

end V0

/-! ## Claim-side key derivation (spec wording, for the C2 refinement) -/

/-- The stem `generateR2Path` derives before suffix stripping: the base name
of the URL path with its extension removed. -/
def urlStem (u : String) : List Char :=
  let baseName := goFilepathBase (goURLPath u)
  let ext := goFilepathExt baseName
  baseName.data.take (baseName.data.length - ext.data.length)

/-- Written from the words of the spec and of C2: strip the trailing
underscore-separated numeric-id suffix, that is, remove the part after the
last underscore exactly when it is a nonempty digit string. -/
def stripNumericIdSuffix (name : List Char) : List Char :=
  let parts := goSplitChar '_' name
  if parts.length > 1 ∧ parts.getLastD [] ≠ [] ∧ (parts.getLastD []).all Char.isDigit then
    goJoinChar '_' parts.dropLast
  else name

/-- Written from the words of C2: the key is the base name of the URL path,
extension stripped, trailing numeric-id suffix stripped, with a forced `.jpg`
extension, under the URL-escaped email; the location is the key under the
base URL. -/
def specGenerateKey (env : Env) (originalURL email : String) : String × String :=
  let name := stripNumericIdSuffix (urlStem originalURL)
  let finalFilename := String.mk name ++ ".jpg"
  let encodedEmail := goQueryEscape email
  let r2Base := getEnv env "R2_URL" "https://storage.stokbro.net"
  let fullURL := goTrimRightSlash r2Base ++ "/" ++ encodedEmail ++ "/" ++ finalFilename
  let objectKey := encodedEmail ++ "/" ++ finalFilename
  (fullURL, objectKey)

/-- The URL-format assumption stated in the source comment (the slug ends in
an underscore-separated numeric id): either the stem has no underscore, or
what follows its last underscore is a nonempty digit string. -/
def stemHasNumericIdFormat (name : List Char) : Prop :=
  (goSplitChar '_' name).length ≤ 1 ∨
    ((goSplitChar '_' name).getLastD [] ≠ [] ∧
      ((goSplitChar '_' name).getLastD []).all Char.isDigit)

instance (name : List Char) : Decidable (stemHasNumericIdFormat name) := by
  unfold stemHasNumericIdFormat
  infer_instance

/-! ## Reader/writer-lock trace semantics (for the concurrency claim)

`contextMux` is a Go `sync.RWMutex`.  A trace is a list of events, each a
task id with an action; acquisition events can only occur when the mutex
would grant them, so a trace containing an acquisition that the lock state
forbids is invalid.  `performLogin` holds the writer side for its whole body
(part_001 lines 174-175), the `/download` logged-in check and `/status` hold
the reader side. -/

/-- Operations performed while holding the session lock. -/
inductive SessionOp
  | loginStep (e : V1.LoginEffect)
  | readLoggedIn
  | readStatus
deriving DecidableEq

/-- Lock events: acquire or release of the writer or reader side of
`contextMux`, or an operation performed by the task. -/
inductive LockAct
  | lockW
  | unlockW
  | lockR
  | unlockR
  | step (op : SessionOp)
deriving DecidableEq

/-- State of the reader/writer lock: the writer holder, if any, and the
tasks holding the reader side. -/
structure LockSt where
  writer : Option Nat
  readers : List Nat
deriving DecidableEq

/-- An event: a task id paired with its action. -/
abbrev Event : Type := Nat × LockAct

/-- One step of the lock semantics; `none` when the event is impossible
(Go would have blocked the task instead of letting the event happen). -/
def lockStep (st : LockSt) (e : Event) : Option LockSt :=
  match e.2 with
  | LockAct.lockW =>
    if st.writer = none ∧ st.readers = [] then some { writer := some e.1, readers := [] }
    else none
  | LockAct.unlockW =>
    if st.writer = some e.1 then some { writer := none, readers := st.readers } else none
  | LockAct.lockR =>
    if st.writer = none then some { st with readers := e.1 :: st.readers } else none
  | LockAct.unlockR =>
    if e.1 ∈ st.readers then some { st with readers := st.readers.erase e.1 } else none
  | LockAct.step _ => some st

/-- Run a trace from a lock state; `none` when some event violates the lock
semantics. -/
def runTrace : LockSt → List Event → Option LockSt
  | st, [] => some st
  | st, e :: rest =>
    match lockStep st e with
    | none => none
    | some st2 => runTrace st2 rest

/-- The unlocked initial state. -/
def initLock : LockSt := { writer := none, readers := [] }

/-- The event trace one `performLogin` call contributes: writer acquisition
(line 174), every browser step of the run in order, writer release on return
(line 175, deferred). -/
def loginEvents (t : Nat) (o : V1.LoginOracle) (homeDir email password : String)
    (s : V1.ServerState) : List Event :=
  (t, LockAct.lockW) ::
    ((V1.performLogin o homeDir email password s).effects.map
      (fun e => (t, LockAct.step (SessionOp.loginStep e)))) ++ [(t, LockAct.unlockW)]

/-- The event trace of the `/download` logged-in check (part_001 lines
349-352): reader acquisition, the read, reader release. -/
def downloadCheckEvents (t : Nat) : List Event :=
  [(t, LockAct.lockR), (t, LockAct.step SessionOp.readLoggedIn), (t, LockAct.unlockR)]

/-- The event trace of the `/status` handler (part_001 lines 377-383). -/
def statusEvents (t : Nat) : List Event :=
  [(t, LockAct.lockR), (t, LockAct.step SessionOp.readStatus), (t, LockAct.unlockR)]

/-! ## Concrete runs used to instantiate the theorems -/

/-- A latest-variant download run in which every browser step and the local
save succeed but the upload fails (as it always does in part_001, which hands
the target URL to `uploadToR2` as the local path to open). -/
def c1FailOracle : V1.DownloadOracle where
  newPageOk := true
  addInitScriptOk := true
  mkdirOk := true
  gotoOk := true
  titleOk := true
  title := "Red Fox Images - Freepik"
  downloadButtonVisible := true
  expectDownloadOk := true
  suggestedFilename := "red-fox.jpg"
  saveOk := true
  uploadOpenOk := false
  uploadPutOk := true

/-- A latest-variant download run in which everything succeeds. -/
def c1GoodOracle : V1.DownloadOracle where
  newPageOk := true
  addInitScriptOk := true
  mkdirOk := true
  gotoOk := true
  titleOk := true
  title := "Red Fox Images - Freepik"
  downloadButtonVisible := true
  expectDownloadOk := true
  suggestedFilename := "red-fox.jpg"
  saveOk := true
  uploadOpenOk := true
  uploadPutOk := true

/-- A temp-file-variant download run in which the staging succeeds and the
upload fails. -/
def c1TempOracle : V0.RunOracle where
  newPageOk := true
  addInitScriptOk := true
  gotoOk := true
  titleOk := true
  title := "Red Fox Images - Freepik"
  downloadButtonVisible := true
  expectDownloadOk := true
  suggestedFilename := "red-fox.jpg"
  createTempOk := true
  tmpPath := "/tmp/freepik-123"
  saveOk := true
  openOk := true
  uploadOk := false

/-- A login run that fails at its first step (page creation). -/
def loginFailOracle : V1.LoginOracle where
  newPageOk := false
  addInitScriptOk := true
  gotoOk := true
  clickSignInOk := true
  clickContinueOk := true
  fillEmailOk := true
  fillPasswordOk := true
  stayLoggedInVisible := false
  checkOk := true
  clickLoginOk := true
  successIndicatorVisible := false
  stillOnLoginPage := false
  errorIndicatorVisible := false
  storageSaveOk := true

/-- A login run whose classification is ambiguous: every step succeeds but no
success indicator is visible, the URL is not a login page, and no error
indicator is visible. -/
def ambiguousLoginOracle : V1.LoginOracle where
  newPageOk := true
  addInitScriptOk := true
  gotoOk := true
  clickSignInOk := true
  clickContinueOk := true
  fillEmailOk := true
  fillPasswordOk := true
  stayLoggedInVisible := true
  checkOk := true
  clickLoginOk := true
  successIndicatorVisible := false
  stillOnLoginPage := false
  errorIndicatorVisible := false
  storageSaveOk := true

/-- A download run that reaches the title read and finds an anti-bot
interstitial title. -/
def blockedOracle : V1.DownloadOracle where
  newPageOk := true
  addInitScriptOk := true
  mkdirOk := true
  gotoOk := true
  titleOk := true
  title := "Just a moment..."
  downloadButtonVisible := true
  expectDownloadOk := true
  suggestedFilename := "red-fox.jpg"
  saveOk := true
  uploadOpenOk := true
  uploadPutOk := true

/-! ## Helper lemmas -/

/-- Under the numeric-id format assumption, the unconditional
last-underscore strip of the source agrees with the numeric-aware strip the
spec describes. -/
lemma strip_eq_of_format (name : List Char) (h : stemHasNumericIdFormat name) :
    (if (goSplitChar '_' name).length > 1 then goJoinChar '_' (goSplitChar '_' name).dropLast
     else name) = stripNumericIdSuffix name := by
  simp only [stripNumericIdSuffix]
  rcases h with hle | ⟨hne, hdig⟩
  · have hgt : ¬ (goSplitChar '_' name).length > 1 := by omega
    rw [if_neg hgt, if_neg (fun hc => hgt hc.1)]
  · by_cases hlen : (goSplitChar '_' name).length > 1
    · rw [if_pos hlen, if_pos ⟨hlen, hne, hdig⟩]
    · rw [if_neg hlen, if_neg (fun hc => hlen hc.1)]

/-- Running a one-event trace is one lock step. -/
lemma runTrace_singleton (st : LockSt) (e : Event) :
    runTrace st [e] = lockStep st e := by
  unfold runTrace
  cases lockStep st e <;> rfl

/-- Every error return of `performLogin` leaves the guarded globals exactly
as they were. -/
lemma performLogin_error_preserves (o : V1.LoginOracle)
    (homeDir email password : String) (s : V1.ServerState) :
    ∀ e, (V1.performLogin o homeDir email password s).err = some e →
      (V1.performLogin o homeDir email password s).state = s := by
  intro e h
  by_cases h1 : o.newPageOk
  · by_cases h2 : o.addInitScriptOk
    · by_cases h3 : o.gotoOk
      · by_cases h4 : o.clickSignInOk
        · by_cases h5 : o.clickContinueOk
          · by_cases h6 : o.fillEmailOk
            · by_cases h7 : o.fillPasswordOk
              · by_cases h8 : o.clickLoginOk
                · by_cases h9 : o.successIndicatorVisible
                  · by_cases h10 : o.storageSaveOk
                    · simp [V1.performLogin, h1, h2, h3, h4, h5, h6, h7, h8, h9, h10] at h
                    · simp [V1.performLogin, h1, h2, h3, h4, h5, h6, h7, h8, h9, h10]
                  · by_cases h11 : o.stillOnLoginPage
                    · simp [V1.performLogin, h1, h2, h3, h4, h5, h6, h7, h8, h9, h11]
                    · by_cases h12 : o.errorIndicatorVisible
                      · simp [V1.performLogin, h1, h2, h3, h4, h5, h6, h7, h8, h9, h11, h12]
                      · by_cases h10 : o.storageSaveOk
                        · simp [V1.performLogin, h1, h2, h3, h4, h5, h6, h7, h8, h9, h11,
                            h12, h10] at h
                        · simp [V1.performLogin, h1, h2, h3, h4, h5, h6, h7, h8, h9, h11,
                            h12, h10]
                · simp [V1.performLogin, h1, h2, h3, h4, h5, h6, h7, h8]
              · simp [V1.performLogin, h1, h2, h3, h4, h5, h6, h7]
            · simp [V1.performLogin, h1, h2, h3, h4, h5, h6]
          · simp [V1.performLogin, h1, h2, h3, h4, h5]
        · simp [V1.performLogin, h1, h2, h3, h4]
      · simp [V1.performLogin, h1, h2, h3]
    · simp [V1.performLogin, h1, h2]
  · simp [V1.performLogin, h1]

/-- Running an appended trace is running both halves in sequence. -/
lemma runTrace_append (xs ys : List Event) :
    ∀ st, runTrace st (xs ++ ys) =
      match runTrace st xs with
      | none => none
      | some st2 => runTrace st2 ys := by
  induction xs with
  | nil => intro st; simp [runTrace]
  | cons e rest ih =>
    intro st
    simp only [List.cons_append, runTrace]
    cases lockStep st e with
    | none => rfl
    | some st2 => exact ih st2

/-- A granted writer acquisition yields exactly the state where the acquiring
task holds the writer side and no readers remain. -/
lemma lockStep_lockW (st st2 : LockSt) (t : Nat)
    (h : lockStep st (t, LockAct.lockW) = some st2) :
    st2 = { writer := some t, readers := [] } := by
  simp only [lockStep] at h
  split_ifs at h
  exact (Option.some.inj h).symm

/-- A granted reader acquisition records the acquiring task as a reader. -/
lemma lockStep_lockR (st st2 : LockSt) (t : Nat)
    (h : lockStep st (t, LockAct.lockR) = some st2) :
    t ∈ st2.readers := by
  simp only [lockStep] at h
  split_ifs at h
  have h2 := Option.some.inj h
  subst h2
  exact List.mem_cons_self _ _

/-- While a task holds the writer side and no readers are registered, a valid
trace that never has that task release the writer side contains no writer and
no reader acquisition at all. -/
lemma noAcquire_whileWriterHeld (t : Nat) :
    ∀ (mid : List Event) (st st2 : LockSt),
      st.writer = some t → st.readers = [] →
      (t, LockAct.unlockW) ∉ mid →
      runTrace st mid = some st2 →
      ∀ u, (u, LockAct.lockW) ∉ mid ∧ (u, LockAct.lockR) ∉ mid := by
  intro mid
  induction mid with
  | nil => intro st st2 _ _ _ _ u; simp
  | cons e rest ih =>
    intro st st2 hw hr hnu hrun u
    obtain ⟨i, a⟩ := e
    cases a with
    | lockW => simp [runTrace, lockStep, hw] at hrun
    | lockR => simp [runTrace, lockStep, hw] at hrun
    | unlockW =>
      by_cases hit : i = t
      · subst hit
        exact absurd (List.mem_cons_self _ _) hnu
      · have : ¬ st.writer = some i := by simp [hw, Ne.symm hit]
        simp [runTrace, lockStep, this] at hrun
    | unlockR => simp [runTrace, lockStep, hr] at hrun
    | step op =>
      have hrun2 : runTrace st rest = some st2 := by
        simpa [runTrace, lockStep] using hrun
      have hnu2 : (t, LockAct.unlockW) ∉ rest := fun hm => hnu (List.mem_cons_of_mem _ hm)
      have h2 := ih st st2 hw hr hnu2 hrun2 u
      refine ⟨?_, ?_⟩ <;> intro hmem <;> rcases List.mem_cons.mp hmem with h | h
      · exact absurd h (by simp)
      · exact h2.1 h
      · exact absurd h (by simp)
      · exact h2.2 h

/-- While a task holds the reader side, a valid trace that never has that
task release the reader side contains no writer acquisition. -/
lemma noLockW_whileReaderHeld (t : Nat) :
    ∀ (mid : List Event) (st st2 : LockSt),
      t ∈ st.readers →
      (t, LockAct.unlockR) ∉ mid →
      runTrace st mid = some st2 →
      ∀ u, (u, LockAct.lockW) ∉ mid := by
  intro mid
  induction mid with
  | nil => intro st st2 _ _ _ u; simp
  | cons e rest ih =>
    intro st st2 hmem hnu hrun u
    obtain ⟨i, a⟩ := e
    cases a with
    | lockW =>
      by_cases hc : st.writer = none ∧ st.readers = []
      · rw [hc.2] at hmem; exact absurd hmem (List.not_mem_nil t)
      · simp [runTrace, lockStep, hc] at hrun
    | lockR =>
      by_cases hc : st.writer = none
      · have hrun2 : runTrace { st with readers := i :: st.readers } rest = some st2 := by
          simpa [runTrace, lockStep, hc] using hrun
        have hmem2 : t ∈ ({ st with readers := i :: st.readers } : LockSt).readers :=
          List.mem_cons_of_mem _ hmem
        have hnu2 : (t, LockAct.unlockR) ∉ rest := fun hm => hnu (List.mem_cons_of_mem _ hm)
        have h2 := ih { st with readers := i :: st.readers } st2 hmem2 hnu2 hrun2 u
        intro hm
        rcases List.mem_cons.mp hm with h | h
        · exact absurd h (by simp)
        · exact h2 h
      · simp [runTrace, lockStep, hc] at hrun
    | unlockW =>
      by_cases hc : st.writer = some i
      · have hrun2 : runTrace { writer := none, readers := st.readers } rest = some st2 := by
          simpa [runTrace, lockStep, hc] using hrun
        have hnu2 : (t, LockAct.unlockR) ∉ rest := fun hm => hnu (List.mem_cons_of_mem _ hm)
        have h2 := ih { writer := none, readers := st.readers } st2 hmem hnu2 hrun2 u
        intro hm
        rcases List.mem_cons.mp hm with h | h
        · exact absurd h (by simp)
        · exact h2 h
      · simp [runTrace, lockStep, hc] at hrun
    | unlockR =>
      by_cases hit : i = t
      · subst hit
        exact absurd (List.mem_cons_self _ _) hnu
      · by_cases hc : i ∈ st.readers
        · have hrun2 : runTrace { st with readers := st.readers.erase i } rest = some st2 := by
            simpa [runTrace, lockStep, hc] using hrun
          have hmem2 : t ∈ ({ st with readers := st.readers.erase i } : LockSt).readers :=
            (List.mem_erase_of_ne (Ne.symm hit)).mpr hmem
          have hnu2 : (t, LockAct.unlockR) ∉ rest := fun hm => hnu (List.mem_cons_of_mem _ hm)
          have h2 := ih { st with readers := st.readers.erase i } st2 hmem2 hnu2 hrun2 u
          intro hm
          rcases List.mem_cons.mp hm with h | h
          · exact absurd h (by simp)
          · exact h2 h
        · simp [runTrace, lockStep, hc] at hrun
    | step op =>
      have hrun2 : runTrace st rest = some st2 := by
        simpa [runTrace, lockStep] using hrun
      have hnu2 : (t, LockAct.unlockR) ∉ rest := fun hm => hnu (List.mem_cons_of_mem _ hm)
      have h2 := ih st st2 hmem hnu2 hrun2 u
      intro hm
      rcases List.mem_cons.mp hm with h | h
      · exact absurd h (by simp)
      · exact h2 h

/-- A task that holds the writer side must release it before any later writer
acquisition can be granted. -/
lemma writerReleased_before_nextLockW (u t : Nat) :
    ∀ (p2 p3 : List Event) (st st2 : LockSt),
      st.writer = some u → st.readers = [] →
      runTrace st (p2 ++ (t, LockAct.lockW) :: p3) = some st2 →
      (u, LockAct.unlockW) ∈ p2 := by
  intro p2
  induction p2 with
  | nil =>
    intro p3 st st2 hw _ hrun
    simp [runTrace, lockStep, hw] at hrun
  | cons e rest ih =>
    intro p3 st st2 hw hr hrun
    obtain ⟨i, a⟩ := e
    cases a with
    | lockW => simp [runTrace, lockStep, hw] at hrun
    | lockR => simp [runTrace, lockStep, hw] at hrun
    | unlockW =>
      by_cases hiu : i = u
      · subst hiu; exact List.mem_cons_self _ _
      · have : ¬ st.writer = some i := by simp [hw, Ne.symm hiu]
        simp [runTrace, lockStep, this] at hrun
    | unlockR => simp [runTrace, lockStep, hr] at hrun
    | step op =>
      have hrun2 : runTrace st (rest ++ (t, LockAct.lockW) :: p3) = some st2 := by
        simpa [runTrace, lockStep] using hrun
      exact List.mem_cons_of_mem _ (ih p3 st st2 hw hr hrun2)

/-! ## Claim theorems -/

/-- C2: `generateR2Path` is a pure function of `(url, email)` for a fixed
`R2_URL` environment (it is a Lean function of exactly those arguments, so
identical inputs give identical results by construction), and on every URL
whose stem follows the underscore-numeric-id format assumed by the source
comment it computes exactly the key the claim describes: base name of the URL
path, extension stripped, trailing numeric-id suffix stripped, `.jpg`
appended, email URL-escaped, joined as `<escaped email>/<filename>`, with the
location being that key under the base URL.  The claim example — a path
ending in `red-fox_12345.htm` with identity `a@b.com` giving key
`a%40b.com/red-fox.jpg` — is the witness. -/
theorem c2_generateR2Path_matches_spec (env : Env) (url email : String)
    (h : stemHasNumericIdFormat (urlStem url)) :
    V1.generateR2Path env url email = specGenerateKey env url email := by
  have hs := strip_eq_of_format (urlStem url) h
  simp only [urlStem] at hs
  simp only [V1.generateR2Path, specGenerateKey, urlStem]
  rw [hs]

/-- C2 witness: the claim example, with the default base URL. -/
theorem c2_witness :
    stemHasNumericIdFormat
        (urlStem "https://www.freepik.com/free-ai-image/red-fox_12345.htm") ∧
      V1.generateR2Path (fun _ => "")
          "https://www.freepik.com/free-ai-image/red-fox_12345.htm" "a@b.com"
        = ("https://storage.stokbro.net/a%40b.com/red-fox.jpg", "a%40b.com/red-fox.jpg") :=
  ⟨by decide,
    (c2_generateR2Path_matches_spec (fun _ => "")
      "https://www.freepik.com/free-ai-image/red-fox_12345.htm" "a@b.com" (by decide)).trans
      (by decide)⟩

/-- C3: a POST `/download` whose body decodes with non-empty url and email,
arriving while the logged-in flag is false, is answered with status 401 and
`success=false`, and spawns no background task and performs no browser or
upload work (the spawned-task list of the handler is empty, and the handler
itself invokes no pipeline effect). -/
theorem c3_not_logged_in_rejected (env : Env) (req : V1.DownloadRequest)
    (s : V1.ServerState) (hu : req.url ≠ "") (he : req.email ≠ "")
    (hl : s.isLoggedIn = false) :
    V1.downloadHandler env Method.post (some req) s =
      { status := 401, success := false, message := "", file := "",
        errMsg := "Not logged in. Please login first.", spawned := [] } := by
  simp [V1.downloadHandler, hu, he, hl]

/-- C3 witness: a concrete request against a logged-out state. -/
theorem c3_witness :
    ("https://www.freepik.com/free-ai-image/red-fox_12345.htm" : String) ≠ "" ∧
      ("a@b.com" : String) ≠ "" ∧
      (V1.ServerState.mk false "someone@else.org" 7).isLoggedIn = false ∧
      V1.downloadHandler (fun _ => "") Method.post
          (some ⟨"https://www.freepik.com/free-ai-image/red-fox_12345.htm", "a@b.com"⟩)
          (V1.ServerState.mk false "someone@else.org" 7)
        = { status := 401, success := false, message := "", file := "",
            errMsg := "Not logged in. Please login first.", spawned := [] } :=
  ⟨by decide, by decide, rfl,
    c3_not_logged_in_rejected (fun _ => "") _ _ (by decide) (by decide) rfl⟩

/-- C4: when `performLogin` returns an error, the login run is atomic: the
`/login` response has `success=false` and surfaces the error text, the
logged-in flag keeps its prior value, and the browser-context reference is
not replaced. -/
theorem c4_login_failure_atomic (o : V1.LoginOracle) (homeDir : String)
    (req : V1.LoginRequest) (s : V1.ServerState) (e : String)
    (h : (V1.performLogin o homeDir (V1.effectiveEmail req) (V1.effectivePassword req)
        { s with currentUserEmail := V1.effectiveEmail req }).err = some e) :
    (V1.loginHandler o homeDir Method.post (some req) s).success = false ∧
      (V1.loginHandler o homeDir Method.post (some req) s).errMsg = "Login failed: " ++ e ∧
      (V1.loginHandler o homeDir Method.post (some req) s).state.isLoggedIn = s.isLoggedIn ∧
      (V1.loginHandler o homeDir Method.post (some req) s).state.contextId = s.contextId := by
  have hp := performLogin_error_preserves o homeDir (V1.effectiveEmail req)
    (V1.effectivePassword req) { s with currentUserEmail := V1.effectiveEmail req } e h
  simp [V1.loginHandler, h, hp]

/-- C4 witness: a login whose first step fails, against a logged-out state. -/
theorem c4_witness :
    (V1.performLogin loginFailOracle "/home/user"
          (V1.effectiveEmail ⟨"a@b.com", "pw"⟩) (V1.effectivePassword ⟨"a@b.com", "pw"⟩)
          { V1.ServerState.mk false "old@user.org" 3 with
              currentUserEmail := V1.effectiveEmail ⟨"a@b.com", "pw"⟩ }).err
        = some "failed to create page" ∧
      (V1.loginHandler loginFailOracle "/home/user" Method.post (some ⟨"a@b.com", "pw"⟩)
          (V1.ServerState.mk false "old@user.org" 3)).success = false ∧
      (V1.loginHandler loginFailOracle "/home/user" Method.post (some ⟨"a@b.com", "pw"⟩)
          (V1.ServerState.mk false "old@user.org" 3)).errMsg
        = "Login failed: " ++ "failed to create page" ∧
      (V1.loginHandler loginFailOracle "/home/user" Method.post (some ⟨"a@b.com", "pw"⟩)
          (V1.ServerState.mk false "old@user.org" 3)).state.isLoggedIn
        = (V1.ServerState.mk false "old@user.org" 3).isLoggedIn ∧
      (V1.loginHandler loginFailOracle "/home/user" Method.post (some ⟨"a@b.com", "pw"⟩)
          (V1.ServerState.mk false "old@user.org" 3)).state.contextId
        = (V1.ServerState.mk false "old@user.org" 3).contextId := by
  refine ⟨by decide, ?_⟩
  have := c4_login_failure_atomic loginFailOracle "/home/user" ⟨"a@b.com", "pw"⟩
    (V1.ServerState.mk false "old@user.org" 3) "failed to create page" (by decide)
  exact this

/-- C5: the ambiguous login outcome — all steps succeed, no success
indicator is visible, the URL is none of the login-page URLs, no error
indicator is visible — is classified as success: when the storage-state save
succeeds the run returns no error, the logged-in flag is set to true, and the
storage state was persisted to the fixed path. -/
theorem c5_ambiguous_outcome_is_success (o : V1.LoginOracle)
    (homeDir email password : String) (s : V1.ServerState)
    (h1 : o.newPageOk) (h2 : o.addInitScriptOk) (h3 : o.gotoOk)
    (h4 : o.clickSignInOk) (h5 : o.clickContinueOk) (h6 : o.fillEmailOk)
    (h7 : o.fillPasswordOk) (h8 : o.clickLoginOk)
    (h9 : o.successIndicatorVisible = false) (h10 : o.stillOnLoginPage = false)
    (h11 : o.errorIndicatorVisible = false) (h12 : o.storageSaveOk) :
    (V1.performLogin o homeDir email password s).err = none ∧
      (V1.performLogin o homeDir email password s).state.isLoggedIn = true ∧
      V1.LoginEffect.saveStorage (getStorageStatePath homeDir)
        ∈ (V1.performLogin o homeDir email password s).effects := by
  simp [V1.performLogin, h1, h2, h3, h4, h5, h6, h7, h8, h9, h10, h11, h12]

/-- C5 witness: a concrete ambiguous run. -/
theorem c5_witness :
    (V1.performLogin ambiguousLoginOracle "/home/user" "a@b.com" "pw"
          (V1.ServerState.mk false "a@b.com" 3)).err = none ∧
      (V1.performLogin ambiguousLoginOracle "/home/user" "a@b.com" "pw"
          (V1.ServerState.mk false "a@b.com" 3)).state.isLoggedIn = true ∧
      V1.LoginEffect.saveStorage (getStorageStatePath "/home/user")
        ∈ (V1.performLogin ambiguousLoginOracle "/home/user" "a@b.com" "pw"
            (V1.ServerState.mk false "a@b.com" 3)).effects :=
  c5_ambiguous_outcome_is_success ambiguousLoginOracle "/home/user" "a@b.com" "pw"
    (V1.ServerState.mk false "a@b.com" 3) rfl rfl rfl rfl rfl rfl rfl rfl rfl rfl rfl rfl

/-- C6: a download run whose page title after navigation exactly equals
`Access Denied` or `Just a moment...` aborts with the blocked-by-anti-bot
error; the download-control visibility check is never performed, and no
upload call occurs in that run. -/
theorem c6_blocked_title_aborts (o : V1.DownloadOracle)
    (homeDir targetURL r2Key : String)
    (h1 : o.newPageOk) (h2 : o.addInitScriptOk) (h3 : o.mkdirOk)
    (h4 : o.gotoOk) (h5 : o.titleOk)
    (ht : o.title = "Access Denied" ∨ o.title = "Just a moment...") :
    (V1.runDownload o homeDir targetURL).1
        = Except.error "page blocked by anti-bot protection" ∧
      DlEffect.checkDownloadButtonVisible ∉ V1.processDownload o homeDir targetURL r2Key ∧
      ∀ lp k, DlEffect.uploadCall lp k ∉ V1.processDownload o homeDir targetURL r2Key := by
  rcases ht with h | h <;>
    simp [V1.runDownload, V1.processDownload, h1, h2, h3, h4, h5, h]

/-- C6 witness: a concrete blocked run. -/
theorem c6_witness :
    (V1.runDownload blockedOracle "/home/user"
          "https://www.freepik.com/free-ai-image/red-fox_12345.htm").1
        = Except.error "page blocked by anti-bot protection" ∧
      DlEffect.checkDownloadButtonVisible ∉ V1.processDownload blockedOracle "/home/user"
          "https://www.freepik.com/free-ai-image/red-fox_12345.htm" "a%40b.com/red-fox.jpg" ∧
      ∀ lp k, DlEffect.uploadCall lp k ∉ V1.processDownload blockedOracle "/home/user"
          "https://www.freepik.com/free-ai-image/red-fox_12345.htm" "a%40b.com/red-fox.jpg" :=
  c6_blocked_title_aborts blockedOracle "/home/user"
    "https://www.freepik.com/free-ai-image/red-fox_12345.htm" "a%40b.com/red-fox.jpg"
    rfl rfl rfl rfl rfl (Or.inr rfl)

/-- C7: at startup, when the storage-state file exists and a context loads
from it, the logged-in flag is true and the login sequencer did not run; when
the file is absent or loading fails, a fresh context with exactly the fixed
fingerprint (user agent, 1920x1080 viewport, en-US locale, America/New_York
timezone, Accept-Language header) is created and the flag is false; whenever
startup completes, exactly one context is live. -/
theorem c7_startup_session (o : V1.StartupOracle) (homeDir : String) :
    (o.storageFileExists → o.loadContextOk →
      V1.startupSession o homeDir = some
        { contexts := [V1.ContextKind.fromStorageState (getStorageStatePath homeDir)],
          isLoggedIn := true, ranLoginSequencer := false }) ∧
    ((o.storageFileExists = false ∨ o.loadContextOk = false) → o.freshContextOk →
      V1.startupSession o homeDir = some
        { contexts := [V1.ContextKind.fresh
            { userAgent := "Mozilla/5.0 (Windows NT 10.0; Win64; x64) AppleWebKit/537.36 (KHTML, like Gecko) Chrome/120.0.0.0 Safari/537.36",
              viewportWidth := 1920, viewportHeight := 1080, locale := "en-US",
              timezoneId := "America/New_York", acceptLanguage := "en-US,en;q=0.9" }],
          isLoggedIn := false, ranLoginSequencer := false }) ∧
    (∀ r, V1.startupSession o homeDir = some r → r.contexts.length = 1) := by
  refine ⟨?_, ?_, ?_⟩
  · intro h1 h2
    simp [V1.startupSession, h1, h2]
  · intro h1 h2
    rcases h1 with h1 | h1
    · simp [V1.startupSession, V1.createNewContext, V1.freshFingerprint, h1, h2]
    · by_cases hse : o.storageFileExists <;>
        simp [V1.startupSession, V1.createNewContext, V1.freshFingerprint, h1, h2, hse]
  · intro r hr
    by_cases h1 : o.storageFileExists <;> by_cases h2 : o.loadContextOk <;>
        by_cases h3 : o.freshContextOk <;>
        simp [V1.startupSession, V1.createNewContext, h1, h2, h3] at hr <;>
        subst hr <;> rfl

/-- C7 witness: the load-success path and the fallback path at concrete
oracles. -/
theorem c7_witness :
    V1.startupSession (V1.StartupOracle.mk true true true) "/home/user" = some
        { contexts := [V1.ContextKind.fromStorageState
            (getStorageStatePath "/home/user")],
          isLoggedIn := true, ranLoginSequencer := false } ∧
      V1.startupSession (V1.StartupOracle.mk true false true) "/home/user" = some
        { contexts := [V1.ContextKind.fresh
            { userAgent := "Mozilla/5.0 (Windows NT 10.0; Win64; x64) AppleWebKit/537.36 (KHTML, like Gecko) Chrome/120.0.0.0 Safari/537.36",
              viewportWidth := 1920, viewportHeight := 1080, locale := "en-US",
              timezoneId := "America/New_York", acceptLanguage := "en-US,en;q=0.9" }],
          isLoggedIn := false, ranLoginSequencer := false } :=
  ⟨(c7_startup_session (V1.StartupOracle.mk true true true) "/home/user").1 rfl rfl,
    (c7_startup_session (V1.StartupOracle.mk true false true) "/home/user").2.1
      (Or.inr rfl) rfl⟩

/-- C9: the email field of a `/download` request is only checked for
non-emptiness and is otherwise ignored: two requests for the same url with
different non-empty emails produce identical handler output, and the returned
location and the spawned task key are computed from the state's
`currentUserEmail` (stored by the last `/login`), not from the request
email. -/
theorem c9_download_email_ignored (env : Env) (req1 req2 : V1.DownloadRequest)
    (s : V1.ServerState) (hl : s.isLoggedIn = true) (hurl : req1.url = req2.url)
    (hu : req1.url ≠ "") (h1 : req1.email ≠ "") (h2 : req2.email ≠ "") :
    V1.downloadHandler env Method.post (some req1) s
        = V1.downloadHandler env Method.post (some req2) s ∧
      (V1.downloadHandler env Method.post (some req1) s).file
        = (V1.generateR2Path env req1.url s.currentUserEmail).1 ∧
      (V1.downloadHandler env Method.post (some req1) s).spawned
        = [(req1.url, (V1.generateR2Path env req1.url s.currentUserEmail).2)] := by
  have hu2 : req2.url ≠ "" := hurl ▸ hu
  simp [V1.downloadHandler, hl, hu, hu2, h1, h2, hurl]

/-- C9 witness: two requests differing only in the email field, against a
state whose stored email differs from both. -/
theorem c9_witness :
    (V1.ServerState.mk true "stored@login.org" 1).isLoggedIn = true ∧
      V1.downloadHandler (fun _ => "") Method.post
          (some ⟨"https://www.freepik.com/free-ai-image/red-fox_12345.htm", "first@req.org"⟩)
          (V1.ServerState.mk true "stored@login.org" 1)
        = V1.downloadHandler (fun _ => "") Method.post
          (some ⟨"https://www.freepik.com/free-ai-image/red-fox_12345.htm", "second@req.org"⟩)
          (V1.ServerState.mk true "stored@login.org" 1) ∧
      (V1.downloadHandler (fun _ => "") Method.post
          (some ⟨"https://www.freepik.com/free-ai-image/red-fox_12345.htm", "first@req.org"⟩)
          (V1.ServerState.mk true "stored@login.org" 1)).file
        = (V1.generateR2Path (fun _ => "")
            "https://www.freepik.com/free-ai-image/red-fox_12345.htm" "stored@login.org").1 ∧
      (V1.downloadHandler (fun _ => "") Method.post
          (some ⟨"https://www.freepik.com/free-ai-image/red-fox_12345.htm", "first@req.org"⟩)
          (V1.ServerState.mk true "stored@login.org" 1)).spawned
        = [("https://www.freepik.com/free-ai-image/red-fox_12345.htm",
            (V1.generateR2Path (fun _ => "")
              "https://www.freepik.com/free-ai-image/red-fox_12345.htm" "stored@login.org").2)] :=
  ⟨rfl, c9_download_email_ignored (fun _ => "") _ _ (V1.ServerState.mk true "stored@login.org" 1)
    rfl rfl (by decide) (by decide) (by decide)⟩

/-- C10: the `/login` handler stores the request email (or the default when
empty) into `currentUserEmail` before `performLogin` runs, so when the login
subsequently fails the stored identity has already been overwritten and is
not restored. -/
theorem c10_email_not_restored_on_failure (o : V1.LoginOracle) (homeDir : String)
    (req : V1.LoginRequest) (s : V1.ServerState) (e : String)
    (h : (V1.performLogin o homeDir (V1.effectiveEmail req) (V1.effectivePassword req)
        { s with currentUserEmail := V1.effectiveEmail req }).err = some e) :
    (V1.loginHandler o homeDir Method.post (some req) s).success = false ∧
      (V1.loginHandler o homeDir Method.post (some req) s).state.currentUserEmail
        = V1.effectiveEmail req := by
  have hp := performLogin_error_preserves o homeDir (V1.effectiveEmail req)
    (V1.effectivePassword req) { s with currentUserEmail := V1.effectiveEmail req } e h
  simp [V1.loginHandler, h, hp]

/-- C10 witness: a failing login that still overwrites the stored email. -/
theorem c10_witness :
    (V1.performLogin loginFailOracle "/home/user"
          (V1.effectiveEmail ⟨"new@user.org", "pw"⟩) (V1.effectivePassword ⟨"new@user.org", "pw"⟩)
          { V1.ServerState.mk true "old@user.org" 3 with
              currentUserEmail := V1.effectiveEmail ⟨"new@user.org", "pw"⟩ }).err
        = some "failed to create page" ∧
      (V1.loginHandler loginFailOracle "/home/user" Method.post (some ⟨"new@user.org", "pw"⟩)
          (V1.ServerState.mk true "old@user.org" 3)).success = false ∧
      (V1.loginHandler loginFailOracle "/home/user" Method.post (some ⟨"new@user.org", "pw"⟩)
          (V1.ServerState.mk true "old@user.org" 3)).state.currentUserEmail
        = V1.effectiveEmail ⟨"new@user.org", "pw"⟩ := by
  refine ⟨by decide, ?_⟩
  exact c10_email_not_restored_on_failure loginFailOracle "/home/user" ⟨"new@user.org", "pw"⟩
    (V1.ServerState.mk true "old@user.org" 3) "failed to create page" (by decide)

/-- C1 counterexample: in the latest variant a run whose staged save
succeeds but whose upload fails performs zero deletions of the staged file —
the claim that exactly one deletion happens regardless of the upload outcome
is false on part_001. -/
theorem c1_counterexample :
    DlEffect.saveFile (joinPath (joinPath "/home/user" "freepik_downloads") "red-fox.jpg")
        ∈ V1.processDownload c1FailOracle "/home/user"
            "https://www.freepik.com/free-ai-image/red-fox_12345.htm"
            "a%40b.com/red-fox.jpg" ∧
      countRemovesOf (joinPath (joinPath "/home/user" "freepik_downloads") "red-fox.jpg")
          (V1.processDownload c1FailOracle "/home/user"
            "https://www.freepik.com/free-ai-image/red-fox_12345.htm"
            "a%40b.com/red-fox.jpg") = 0 := by
  decide

/-- C1 (amended): in the temp-file variant (part_000) the staged temp file is
deleted exactly once on every exit path after its creation, whatever the
save, reopen and upload outcomes (the deferred removal); in the latest
variant (part_001) the staged file is deleted exactly once when the upload
succeeds, and is not deleted — leaked — when the upload fails. -/
theorem c1_staged_file_cleanup :
    (∀ (o : V0.RunOracle) (dateStr targetURL : String),
      o.newPageOk → o.addInitScriptOk → o.gotoOk → o.titleOk →
      o.title ≠ "Access Denied" → o.title ≠ "Just a moment..." →
      o.downloadButtonVisible → o.expectDownloadOk → o.createTempOk →
      countRemovesOf o.tmpPath (V0.processDownload o dateStr targetURL) = 1) ∧
    (∀ (o : V1.DownloadOracle) (homeDir targetURL r2Key : String),
      o.newPageOk → o.addInitScriptOk → o.mkdirOk → o.gotoOk → o.titleOk →
      o.title ≠ "Access Denied" → o.title ≠ "Just a moment..." →
      o.downloadButtonVisible → o.expectDownloadOk → o.saveOk →
      o.uploadOpenOk → o.uploadPutOk →
      countRemovesOf (joinPath (joinPath homeDir "freepik_downloads") o.suggestedFilename)
        (V1.processDownload o homeDir targetURL r2Key) = 1) ∧
    (∀ (o : V1.DownloadOracle) (homeDir targetURL r2Key : String),
      o.newPageOk → o.addInitScriptOk → o.mkdirOk → o.gotoOk → o.titleOk →
      o.title ≠ "Access Denied" → o.title ≠ "Just a moment..." →
      o.downloadButtonVisible → o.expectDownloadOk → o.saveOk →
      (o.uploadOpenOk = false ∨ o.uploadPutOk = false) →
      countRemovesOf (joinPath (joinPath homeDir "freepik_downloads") o.suggestedFilename)
        (V1.processDownload o homeDir targetURL r2Key) = 0) := by
  refine ⟨?_, ?_, ?_⟩
  · intro o dateStr targetURL h1 h2 h3 h4 ht1 ht2 h5 h6 h7
    by_cases hs : o.saveOk <;> by_cases ho : o.openOk <;> by_cases hu : o.uploadOk <;>
      simp [V0.processDownload, V0.runDownload, V0.runDownloadTail, countRemovesOf,
        h1, h2, h3, h4, ht1, ht2, h5, h6, h7, hs, ho, hu]
  · intro o homeDir targetURL r2Key h1 h2 h3 h4 h5 ht1 ht2 h6 h7 h8 h9 h10
    simp [V1.processDownload, V1.runDownload, V1.uploadToR2, countRemovesOf,
      h1, h2, h3, h4, h5, ht1, ht2, h6, h7, h8, h9, h10]
  · intro o homeDir targetURL r2Key h1 h2 h3 h4 h5 ht1 ht2 h6 h7 h8 hupload
    rcases hupload with h | h
    · simp [V1.processDownload, V1.runDownload, V1.uploadToR2, countRemovesOf,
        h1, h2, h3, h4, h5, ht1, ht2, h6, h7, h8, h]
    · by_cases ho : o.uploadOpenOk <;>
        simp [V1.processDownload, V1.runDownload, V1.uploadToR2, countRemovesOf,
          h1, h2, h3, h4, h5, ht1, ht2, h6, h7, h8, h, ho]

/-- C1 witness: concrete runs for the three amended branches. -/
theorem c1_witness :
    countRemovesOf "/tmp/freepik-123"
        (V0.processDownload c1TempOracle "2024-01-01"
          "https://www.freepik.com/free-ai-image/red-fox_12345.htm") = 1 ∧
      countRemovesOf (joinPath (joinPath "/home/user" "freepik_downloads") "red-fox.jpg")
        (V1.processDownload c1GoodOracle "/home/user"
          "https://www.freepik.com/free-ai-image/red-fox_12345.htm"
          "a%40b.com/red-fox.jpg") = 1 ∧
      countRemovesOf (joinPath (joinPath "/home/user" "freepik_downloads") "red-fox.jpg")
        (V1.processDownload c1FailOracle "/home/user"
          "https://www.freepik.com/free-ai-image/red-fox_12345.htm"
          "a%40b.com/red-fox.jpg") = 0 :=
  ⟨c1_staged_file_cleanup.1 c1TempOracle "2024-01-01"
      "https://www.freepik.com/free-ai-image/red-fox_12345.htm"
      rfl rfl rfl rfl (by decide) (by decide) rfl rfl rfl,
    c1_staged_file_cleanup.2.1 c1GoodOracle "/home/user"
      "https://www.freepik.com/free-ai-image/red-fox_12345.htm" "a%40b.com/red-fox.jpg"
      rfl rfl rfl rfl rfl (by decide) (by decide) rfl rfl rfl rfl rfl,
    c1_staged_file_cleanup.2.2 c1FailOracle "/home/user"
      "https://www.freepik.com/free-ai-image/red-fox_12345.htm" "a%40b.com/red-fox.jpg"
      rfl rfl rfl rfl rfl (by decide) (by decide) rfl rfl rfl (Or.inl rfl)⟩

/-- C8: the login sequence runs entirely inside the writer critical section
of the single reader/writer lock, and the lock semantics make that section
exclusive.  Conjunct 1: every login trace is writer acquisition, then only
that login's own browser steps, then writer release — the whole sequence is
inside the critical section.  Conjunct 2: in any valid trace, no task
acquires the writer or the reader side strictly inside another task's writer
critical section, so no concurrent login step and no lock-protected read
(download's logged-in check, `/status`) interleaves with an in-flight login.
Conjunct 3: a task that acquired the writer side must have released it before
any later writer acquisition is granted, so of N simultaneous logins one
fully completes before any other acquires the lock — and hence before any
other begins its navigation step, which conjunct 1 places after the
acquisition.  Conjunct 4: no writer acquisition is granted strictly inside a
reader critical section, so login and the lock-protected reads never
overlap. -/
theorem c8_login_mutual_exclusion :
    (∀ (t : Nat) (o : V1.LoginOracle) (homeDir email password : String)
        (s : V1.ServerState),
      ∃ mid, loginEvents t o homeDir email password s
          = (t, LockAct.lockW) :: mid ++ [(t, LockAct.unlockW)] ∧
        ∀ x ∈ mid, ∃ e, x = (t, LockAct.step (SessionOp.loginStep e))) ∧
    (∀ (pre mid post : List Event) (t : Nat) (st : LockSt),
      runTrace initLock
          (pre ++ (t, LockAct.lockW) :: mid ++ (t, LockAct.unlockW) :: post) = some st →
      (t, LockAct.unlockW) ∉ mid →
      ∀ u, (u, LockAct.lockW) ∉ mid ∧ (u, LockAct.lockR) ∉ mid) ∧
    (∀ (p1 p2 p3 : List Event) (u t : Nat) (st : LockSt),
      runTrace initLock
          (p1 ++ (u, LockAct.lockW) :: p2 ++ (t, LockAct.lockW) :: p3) = some st →
      (u, LockAct.unlockW) ∈ p2) ∧
    (∀ (pre mid post : List Event) (r : Nat) (st : LockSt),
      runTrace initLock
          (pre ++ (r, LockAct.lockR) :: mid ++ (r, LockAct.unlockR) :: post) = some st →
      (r, LockAct.unlockR) ∉ mid →
      ∀ u, (u, LockAct.lockW) ∉ mid) := by
  refine ⟨?_, ?_, ?_, ?_⟩
  · intro t o homeDir email password s
    refine ⟨(V1.performLogin o homeDir email password s).effects.map
      (fun e => (t, LockAct.step (SessionOp.loginStep e))), rfl, ?_⟩
    intro x hx
    obtain ⟨e, _, rfl⟩ := List.mem_map.mp hx
    exact ⟨e, rfl⟩
  · intro pre mid post t st hrun hnu
    rw [show pre ++ (t, LockAct.lockW) :: mid ++ (t, LockAct.unlockW) :: post
        = (pre ++ [(t, LockAct.lockW)]) ++ (mid ++ (t, LockAct.unlockW) :: post) by simp] at hrun
    rw [runTrace_append] at hrun
    cases hpre : runTrace initLock (pre ++ [(t, LockAct.lockW)]) with
    | none => rw [hpre] at hrun; cases hrun
    | some stm =>
      rw [hpre] at hrun
      dsimp only at hrun
      rw [runTrace_append] at hpre
      cases hp1 : runTrace initLock pre with
      | none => rw [hp1] at hpre; cases hpre
      | some stp =>
        rw [hp1] at hpre
        dsimp only at hpre
        rw [runTrace_singleton] at hpre
        obtain rfl := lockStep_lockW stp stm t hpre
        rw [runTrace_append] at hrun
        cases hm : runTrace { writer := some t, readers := [] } mid with
        | none => rw [hm] at hrun; cases hrun
        | some stmid =>
          exact noAcquire_whileWriterHeld t mid _ stmid rfl rfl hnu hm
  · intro p1 p2 p3 u t st hrun
    rw [show p1 ++ (u, LockAct.lockW) :: p2 ++ (t, LockAct.lockW) :: p3
        = (p1 ++ [(u, LockAct.lockW)]) ++ (p2 ++ (t, LockAct.lockW) :: p3) by simp] at hrun
    rw [runTrace_append] at hrun
    cases hpre : runTrace initLock (p1 ++ [(u, LockAct.lockW)]) with
    | none => rw [hpre] at hrun; cases hrun
    | some stm =>
      rw [hpre] at hrun
      dsimp only at hrun
      rw [runTrace_append] at hpre
      cases hp1 : runTrace initLock p1 with
      | none => rw [hp1] at hpre; cases hpre
      | some stp =>
        rw [hp1] at hpre
        dsimp only at hpre
        rw [runTrace_singleton] at hpre
        obtain rfl := lockStep_lockW stp stm u hpre
        exact writerReleased_before_nextLockW u t p2 p3 _ st rfl rfl hrun
  · intro pre mid post r st hrun hnr
    rw [show pre ++ (r, LockAct.lockR) :: mid ++ (r, LockAct.unlockR) :: post
        = (pre ++ [(r, LockAct.lockR)]) ++ (mid ++ (r, LockAct.unlockR) :: post) by simp] at hrun
    rw [runTrace_append] at hrun
    cases hpre : runTrace initLock (pre ++ [(r, LockAct.lockR)]) with
    | none => rw [hpre] at hrun; cases hrun
    | some stm =>
      rw [hpre] at hrun
      dsimp only at hrun
      rw [runTrace_append] at hpre
      cases hp1 : runTrace initLock pre with
      | none => rw [hp1] at hpre; cases hpre
      | some stp =>
        rw [hp1] at hpre
        dsimp only at hpre
        rw [runTrace_singleton] at hpre
        have hmem := lockStep_lockR stp stm r hpre
        rw [runTrace_append] at hrun
        cases hm : runTrace stm mid with
        | none => rw [hm] at hrun; cases hrun
        | some stmid =>
          exact noLockW_whileReaderHeld r mid stm stmid hmem hnr hm

/-- C8 witness: concrete valid traces instantiating the exclusion
conjuncts. -/
theorem c8_witness :
    (((1 : Nat), LockAct.lockW)
        ∉ [((0 : Nat), LockAct.step (SessionOp.loginStep V1.LoginEffect.navigateHome))] ∧
      ((1 : Nat), LockAct.lockR)
        ∉ [((0 : Nat), LockAct.step (SessionOp.loginStep V1.LoginEffect.navigateHome))]) ∧
    ((0 : Nat), LockAct.unlockW) ∈ [((0 : Nat), LockAct.unlockW)] ∧
    ((0 : Nat), LockAct.lockW) ∉ [((2 : Nat), LockAct.step SessionOp.readLoggedIn)] :=
  ⟨c8_login_mutual_exclusion.2.1
      [] [((0 : Nat), LockAct.step (SessionOp.loginStep V1.LoginEffect.navigateHome))] [] 0
      { writer := none, readers := [] } (by decide) (by decide) 1,
    c8_login_mutual_exclusion.2.2.1 [] [((0 : Nat), LockAct.unlockW)] [] 0 1
      { writer := some 1, readers := [] } (by decide),
    c8_login_mutual_exclusion.2.2.2 [] [((2 : Nat), LockAct.step SessionOp.readLoggedIn)] [] 2
      { writer := none, readers := [] } (by decide) (by decide) 0⟩

end PlaywrightAPI
